import Mathlib

/-!
Verification of the document-to-answer pipeline of `src/app.py`
(RangkumIN AI-powered research assistant).

Text is modelled as `List Char` (`Str`); the Python string operations used by
the source (`lower`, `split(',')`, `strip`, the `in` substring test, `join`)
are embedded as executable functions below. External services (the PDF
loader, the text splitter, the LLM endpoint, the arXiv search) are embedded
as explicit parameters or, where marked, modelled from the spec.
-/

open scoped List

set_option maxRecDepth 1000000

/-- Text is a list of characters; Python `str` in the source. -/
abbrev Str := List Char

/-- Byte contents of an uploaded file. -/
abbrev Bytes := List Nat

/-- Conversion from a Lean string literal to the `Str` model. -/
def str (s : String) : Str := s.data

/-- Python `str.lower()` (ASCII-adequate for the strings involved). -/
def toLowerStr (s : Str) : Str := s.map Char.toLower

/-- Python whitespace characters recognised by `str.strip()`. -/
def isSpaceChar (c : Char) : Bool :=
  c = ' ' || c = '\t' || c = '\n' || c = '\r' || c = '\x0b' || c = '\x0c'

/-- Python `str.strip()`: drop leading and trailing whitespace. -/
def trimStr (s : Str) : Str :=
  ((s.dropWhile isSpaceChar).reverse.dropWhile isSpaceChar).reverse

/-- Python `str.split(',')`: split on every comma; `""` splits to `[""]`. -/
def splitOnComma : Str → List Str
  | [] => [[]]
  | c :: rest =>
    if c = ',' then [] :: splitOnComma rest
    else
      match splitOnComma rest with
      | [] => [[c]]
      | s :: ss => (c :: s) :: ss

/-- `leadsWith needle s`: `needle` is an initial segment of `s`. -/
def leadsWith : Str → Str → Bool
  | [], _ => true
  | _ :: _, [] => false
  | a :: as, b :: bs => (a = b) && leadsWith as bs

/-- Python `needle in haystack`: substring occurrence (the empty needle
occurs in everything, as in Python). -/
def occursIn (needle : Str) : Str → Bool
  | [] => needle.isEmpty
  | c :: rest => leadsWith needle (c :: rest) || occursIn needle rest

/-- Python `sep.join(parts)`. -/
def joinSep (sep : Str) : List Str → Str
  | [] => []
  | [s] => s
  | s :: t :: rest => s ++ sep ++ joinSep sep (t :: rest)

/-- Lines 221–223 of `src/app.py` (`find_related_journals`):
`doc_keywords = set(concepts.lower().split(','))`;
`paper_text = f"{result.title} {result.summary}".lower()`;
`matches = sum(1 for kw in doc_keywords if kw.strip() in paper_text)`.
The Python `set` collapses duplicate raw segments before trimming, so the
count ranges over the distinct lowercased comma-segments; `List.dedup`
plays the role of `set` (iteration order is irrelevant to the count). -/
def overlapScore (concepts title abstractText : Str) : Nat :=
  ((splitOnComma (toLowerStr concepts)).dedup.filter
    (fun kw => occursIn (trimStr kw) (toLowerStr (title ++ ' ' :: abstractText)))).length

/-- Follows the spec's words, for comparison with `overlapScore`: "the count
of extracted concept terms (split on commas, case-insensitive, each term
trimmed of surrounding whitespace) that appear as substrings of the
candidate's combined title and abstract" — a count over the comma-split
list itself, with no collapsing of duplicates. -/
def specOverlapScore (concepts title abstractText : Str) : Nat :=
  ((splitOnComma (toLowerStr concepts)).filter
    (fun kw => occursIn (trimStr kw) (toLowerStr (title ++ ' ' :: abstractText)))).length

/-- One record returned by the arXiv search (lines 219–234 of `src/app.py`):
title, authors, formatted publication date, abstract (`result.summary`),
PDF URL and optional DOI. -/
structure ArxivPaper where
  title : Str
  authors : List Str
  published : Str
  abstractText : Str
  pdfUrl : Str
  doi : Option Str
deriving DecidableEq

/-- A candidate that survived the overlap filter, paired with its
`relevance_score` (line 233 of `src/app.py`). -/
structure ScoredPaper where
  paper : ArxivPaper
  relevanceScore : Nat
deriving DecidableEq

/-- Lines 219–234 of `src/app.py`: scan the service's results in order and
keep (with its score) every candidate whose overlap score is at least 2
(`if matches >= 2`). -/
def filterCandidates (concepts : Str) (papers : List ArxivPaper) : List ScoredPaper :=
  papers.filterMap (fun p =>
    if 2 ≤ overlapScore concepts p.title p.abstractText then
      some ⟨p, overlapScore concepts p.title p.abstractText⟩
    else none)

/-- The comparison realised by line 237 of `src/app.py`,
`results.sort(key=lambda x: x['relevance_score'], reverse=True)`:
descending by score. -/
def scoreLE (a b : ScoredPaper) : Bool := decide (b.relevanceScore ≤ a.relevanceScore)

/-- Lines 216–238 of `src/app.py`: filter by the minimum overlap threshold,
sort by `relevance_score` descending with Python's stable `list.sort`
(embedded as the stable `List.mergeSort`), truncate to the 5 best. -/
def selectRelated (concepts : Str) (papers : List ArxivPaper) : List ScoredPaper :=
  ((filterCandidates concepts papers).mergeSort scoreLE).take 5

/-- The LLM endpoint fails: network/auth/rate-limit error of the generation
service (`GenerationUnavailable` in the spec's taxonomy). -/
inductive GenerationUnavailable
  | unavailable
deriving DecidableEq

/-- The external bibliographic search fails (`SearchUnavailable` in the
spec's taxonomy); caught at line 240 of `src/app.py`. -/
inductive SearchUnavailable
  | unavailable
deriving DecidableEq

/-- What `find_related_journals` hands back to its caller together with the
user-visible report: `result = none` models Python `None` (line 260),
`result = some l` models returning the list `l`; `searchErrorReported`
records whether the `st.error` call of line 241 ran. -/
structure RetrieverOutcome where
  result : Option (List Str)
  searchErrorReported : Bool
deriving DecidableEq

/-- Lines 157–260 of `src/app.py` (`find_related_journals`). Stage 1
(concept extraction, lines 162–186) and stage 2 (query construction, lines
189–205) are LLM calls outside any `try`, so their failures propagate;
stage 3 (lines 207–242) catches any search error, reports it and returns
the empty list; otherwise the surviving candidates are formatted one
markdown block per paper (lines 244–258, `enumerate(results, 1)`, embedded
as the per-paper function `fmt`) and the function returns the formatted
list, or `None` when it is empty (line 260). -/
def findRelatedJournals (extractConcepts : Except GenerationUnavailable Str)
    (buildQuery : Str → Except GenerationUnavailable Str)
    (searchService : Str → Except SearchUnavailable (List ArxivPaper))
    (fmt : Nat → ScoredPaper → Str) :
    Except GenerationUnavailable RetrieverOutcome :=
  match extractConcepts with
  | .error e => .error e
  | .ok concepts =>
    match buildQuery concepts with
    | .error e => .error e
    | .ok query =>
      match searchService query with
      | .error _ => .ok ⟨some [], true⟩
      | .ok papers =>
        let formattedResults :=
          (selectRelated concepts papers).mapIdx (fun i p => fmt (i + 1) p)
        .ok ⟨if formattedResults = [] then none else some formattedResults, false⟩

/-- The external PDF loader's failure: no extractable text layer
(`UnreadableDocument` in the spec's taxonomy). -/
inductive UnreadableDocument
  | noTextLayer
deriving DecidableEq

/-- How `load_and_split_pdf` (lines 25–43 of `src/app.py`) can fail: the
upload's `read()`/`write` inside the `with` block raises, or the loader
finds no readable text. -/
inductive IngestError
  | uploadReadFailed
  | unreadableDocument
deriving DecidableEq

/-- The external world of one ingestion run. `readUpload = none` models
`pdf_file.read()` / `tmp_file.write(...)` (line 28) raising.
`loadPdf` is the external `PyPDFLoader` (not part of this repository):
modelled from the spec, it fails with `UnreadableDocument` exactly on
documents with no extractable text layer, and otherwise returns the pages'
texts in reading order. -/
structure IngestEnv where
  readUpload : Option Bytes
  loadPdf : Bytes → Except UnreadableDocument (List Str)

/-- Pointwise update of the temporary-file store
(paths are modelled as naturals, `none` means no file at that path). -/
def updateStore (store : Nat → Option Bytes) (p : Nat) (v : Option Bytes) :
    Nat → Option Bytes :=
  fun q => if q = p then v else store q

/-- Modelled from the spec: the external
`RecursiveCharacterTextSplitter(chunk_size=4000, chunk_overlap=200)`
(lines 35–40 of `src/app.py`, not repository code) partitions one page's
text into windows of at most `chunkSize` characters, adjacent windows
overlapping by `overlap` characters; a page of at most `chunkSize`
characters is one window. Fuel-driven so the recursion is structural. -/
def splitTextAux (chunkSize stride : Nat) : Nat → Str → List Str
  | 0, t => [t]
  | fuel + 1, t =>
    if t.length ≤ chunkSize then [t]
    else t.take chunkSize :: splitTextAux chunkSize stride fuel (t.drop stride)

/-- Split one page's text into overlapping windows (see `splitTextAux`). -/
def splitText (chunkSize overlap : Nat) (t : Str) : List Str :=
  splitTextAux chunkSize (chunkSize - overlap) t.length t

/-- `text_splitter.split_documents(pages)` (line 40 of `src/app.py`):
each page document is split on its own, in page order, with the
configuration `chunk_size=4000, chunk_overlap=200`. -/
def splitPages (pages : List Str) : List Str :=
  pages.flatMap (splitText 4000 200)

/-- Outcome of one run of `load_and_split_pdf` together with the final
state of temporary storage. -/
structure IngestResult where
  outcome : Except IngestError (List Str)
  tempFiles : Nat → Option Bytes

/-- Lines 25–43 of `src/app.py` (`load_and_split_pdf`).
`NamedTemporaryFile(delete=False)` creates the staging file at `tmpPath`
before anything is written; if reading/writing the upload raises inside
the `with` block, the `try/finally` below it is never entered, so no
`os.unlink` runs and the staging file stays in the store. Once the bytes
are staged, the loader reads the file at `tmpPath`, the pages are split,
and the `finally: os.unlink(tmp_file_path)` removes the staging file on
the success and on the load-failure path alike. -/
def loadAndSplitPdf (env : IngestEnv) (tmpPath : Nat)
    (store : Nat → Option Bytes) : IngestResult :=
  let store1 := updateStore store tmpPath (some [])
  match env.readUpload with
  | none => ⟨.error .uploadReadFailed, store1⟩
  | some bytes =>
    let store2 := updateStore store1 tmpPath (some bytes)
    match env.loadPdf ((store2 tmpPath).getD []) with
    | .error _ => ⟨.error .unreadableDocument, updateStore store2 tmpPath none⟩
    | .ok pages => ⟨.ok (splitPages pages), updateStore store2 tmpPath none⟩

/-- Line 331 of `src/app.py`:
`"\n\n".join([doc.page_content for doc in splits])`. -/
def fullTextOf (splits : List Str) : Str := joinSep (str "\n\n") splits

/-- The per-session state kept in `st.session_state`
(lines 266–279 of `src/app.py`). -/
structure SessionState where
  summary : Option Str
  currentMode : Str
  chatHistory : List Str
  fullText : Str
  citations : Option Str
  relatedPapers : Option (List Str)
  uploadedFileName : Option Str

/-- Lines 266–279 of `src/app.py`: the state of a fresh session. -/
def initialSession : SessionState :=
  { summary := none
  , currentMode := str "summary"
  , chatHistory := []
  , fullText := []
  , citations := none
  , relatedPapers := none
  , uploadedFileName := none }

/-- The system instruction of `generate_summary`
(lines 50–76 of `src/app.py`), line by line, verbatim. -/
def summarySystemPromptLines : List String :=
  [ "Anda adalah asisten penelitian akademik. Ekstrak informasi berikut dari jurnal dalam format poin-poin tanpa kalimat pengantar atau penjelasan tambahan:"
  , ""
  , "- **Judul**: [Judul jurnal]"
  , "(beri jarak)"
  , "- **Author(s)**: [Daftar penulis]"
  , "(beri jarak)"
  , "- **Abstract**: [Ringkasan konten jurnal]"
  , "(beri jarak)"
  , "- **Keywords**: [Kata kunci penting]"
  , "(beri jarak)"
  , "- **Metode Penelitian**: [Metodologi yang digunakan]"
  , "(beri jarak)"
  , "- **Publisher**: [Penerbit atau nama jurnal] atau \x27Tidak Diketahui\x27"
  , "(beri jarak)"
  , "- **Tanggal Publish**: [Tanggal publikasi] atau \x27Tidak Diketahui\x27"
  , "(beri jarak)"
  , "- **Kesimpulan**: [Kesimpulan utama penelitian]"
  , "(beri jarak)"
  , "- **DOI**: [Link atau nomor DOI] atau \x27Tidak Diketahui\x27"
  , ""
  , "Aturan ketat:"
  , "1. Hanya output informasi dalam format poin di atas"
  , "2. Tidak ada kalimat pengantar"
  , "3. Tidak ada catatan atau penjelasan tambahan"
  , "4. Jika informasi tidak ada, cukup tulis \x27Tidak Diketahui\x27"
  , "5. Gunakan bahasa Indonesia secara konsisten"
  , "6. Berikan jarak setidaknya 1 baris disetiap poinnya, misal judul lalu beri baris, author lalu beri baris, abstrak lalu beri baris" ]

/-- The summary system instruction as one text. -/
def summarySystemPrompt : Str :=
  joinSep (str "\n") (summarySystemPromptLines.map str)

/-- `generate_summary` (lines 45–81 of `src/app.py`): one call of the
remote LLM with the fixed system instruction and the document text as the
user message; the model's completion is returned verbatim, with no
validation or post-processing. The remote service is the parameter `llm`
(system message, user message ↦ completion). -/
def generateSummary (llm : Str → Str → Str) (documentText : Str) : Str :=
  llm summarySystemPrompt documentText

/-- The system instruction of `generate_citations`
(lines 114–150 of `src/app.py`), line by line, verbatim. -/
def citationSystemPromptLines : List String :=
  [ "You are an expert academic research assistant. Generate citations in multiple styles strictly following these rules:"
  , ""
  , "1. Output ONLY the citation formats below, nothing else"
  , "2. No introductory sentences or explanations"
  , "3. Use this exact format for each style:"
  , ""
  , "**APA Style**"
  , "<br>"
  , "[APA citation]"
  , ""
  , "**MLA Style**"
  , "<br>"
  , "[MLA citation]"
  , ""
  , "**Harvard Style**"
  , "<br>"
  , "[Harvard citation]"
  , ""
  , "**IEEE Style**"
  , "<br>"
  , "[IEEE citation]"
  , ""
  , "**Chicago Style**"
  , "<br>"
  , "[Chicago citation]"
  , ""
  , "**Vancouver Style**"
  , "<br>"
  , "[Vancouver citation]"
  , ""
  , "**AMA Style**"
  , "<br>"
  , "[AMA citation]"
  , ""
  , "4. Include all available elements: authors, title, journal, year, volume, issue, pages, DOI"
  , "5. For missing information, use [assumed information] and keep it minimal"
  , "6. Do not add any other text outside the citation formats" ]

/-- The citation system instruction as one text. -/
def citationSystemPrompt : Str :=
  joinSep (str "\n") (citationSystemPromptLines.map str)

/-- `generate_citations` (lines 109–155 of `src/app.py`): one call of the
remote LLM with the fixed citation instruction; the completion is returned
verbatim, with no validation or post-processing. -/
def generateCitations (llm : Str → Str → Str) (documentText : Str) : Str :=
  llm citationSystemPrompt documentText

/-- Take characters up to (excluding) the first `**` marker. -/
def takeUntilMarker : Str → Str
  | [] => []
  | '*' :: '*' :: _ => []
  | c :: rest => c :: takeUntilMarker rest

/-- The field label announced by one summary-prompt line: lines of the form
`- **label**: ...` define a labeled field. -/
def fieldLabelOf (line : Str) : Option Str :=
  if leadsWith (str "- **") line then some (takeUntilMarker (line.drop 4))
  else none

/-- The labeled fields the summary instruction requests, in order. -/
def summaryFieldLabels : List Str :=
  (summarySystemPromptLines.map str).filterMap fieldLabelOf

/-- The style label announced by one citation-prompt line: lines of the
form `**... Style**` open a citation-style section. -/
def styleLabelOf (line : Str) : Option Str :=
  if leadsWith (str "**") line && occursIn (str "Style**") line then
    some (takeUntilMarker (line.drop 2))
  else none

/-- The style sections the citation instruction requests, in order. -/
def citationStyleLabels : List Str :=
  (citationSystemPromptLines.map str).filterMap styleLabelOf

/-- An artifact shows all nine summary field labels. -/
def containsAllSummaryFields (artifact : Str) : Bool :=
  summaryFieldLabels.all (fun lbl => occursIn lbl artifact)

/-- An artifact shows all seven citation style labels. -/
def containsAllCitationStyles (artifact : Str) : Bool :=
  citationStyleLabels.all (fun lbl => occursIn lbl artifact)

/-- Lines 324–337 of `src/app.py`: the upload handler. The uploaded file's
name is recorded first (line 329), then the PDF is loaded and split; on
success the concatenated full text and its generated summary are stored
and the mode returns to `summary`; on any ingestion failure an error is
shown and no artifact field is touched. -/
def uploadHandler (env : IngestEnv) (llm : Str → Str → Str) (tmpPath : Nat)
    (store : Nat → Option Bytes) (s : SessionState) (fileName : Str) :
    SessionState × (Nat → Option Bytes) :=
  let s1 := { s with uploadedFileName := some fileName }
  let r := loadAndSplitPdf env tmpPath store
  match r.outcome with
  | .error _ => (s1, r.tempFiles)
  | .ok splits =>
    let ft := fullTextOf splits
    ({ s1 with fullText := ft
             , summary := some (generateSummary llm ft)
             , currentMode := str "summary" }, r.tempFiles)

/-! ## Supporting lemmas -/

/-- `scoreLE` is transitive, as the merge-sort lemmas require. -/
theorem scoreLE_trans :
    ∀ a b c : ScoredPaper, scoreLE a b → scoreLE b c → scoreLE a c := by
  intro a b c h1 h2
  simp only [scoreLE, decide_eq_true_eq] at *
  omega

/-- `scoreLE` is total, as the merge-sort lemmas require. -/
theorem scoreLE_total : ∀ a b : ScoredPaper, scoreLE a b || scoreLE b a := by
  intro a b
  simp only [scoreLE, Bool.or_eq_true, decide_eq_true_eq]
  omega

/-- Everything the overlap filter keeps scores at least 2. -/
theorem filterCandidates_score {concepts : Str} {papers : List ArxivPaper}
    {sp : ScoredPaper} (h : sp ∈ filterCandidates concepts papers) :
    2 ≤ sp.relevanceScore := by
  simp only [filterCandidates, List.mem_filterMap] at h
  obtain ⟨p, -, hp⟩ := h
  split at hp
  · next h2 =>
    cases hp
    exact h2
  · exact absurd hp (by simp)

/-- The overlap filter keeps the external service's original relative
order of the candidates. -/
theorem filterCandidates_map_sublist (concepts : Str) :
    ∀ papers : List ArxivPaper,
      (filterCandidates concepts papers).map ScoredPaper.paper <+ papers
  | [] => by simp [filterCandidates]
  | p :: papers => by
    have ih := filterCandidates_map_sublist concepts papers
    simp only [filterCandidates, List.filterMap_cons]
    split
    · exact (ih : _ <+ papers).cons p
    · next b heq =>
      split at heq
      · cases heq
        exact (ih : _ <+ papers).cons₂ p
      · exact absurd heq (by simp)

/-! ## C1 — filter, stable descending sort, truncation -/

/-- C1: for every list of candidate papers returned by the external search
and every extracted concept set, the Related-Work Retriever's selection
contains only candidates whose overlap score is at least 2, is sorted by
overlap score descending, has length at most 5, and is stable: for each
score, the candidates carrying that score appear as a subsequence of the
filtered list, which itself preserves the external service's original
relative order. -/
theorem c1_related_filter_sort_truncate (concepts : Str) (papers : List ArxivPaper) :
    (∀ sp ∈ selectRelated concepts papers, 2 ≤ sp.relevanceScore) ∧
    (selectRelated concepts papers).Pairwise
      (fun a b => b.relevanceScore ≤ a.relevanceScore) ∧
    (selectRelated concepts papers).length ≤ 5 ∧
    (∀ s : Nat,
      (selectRelated concepts papers).filter (fun sp => sp.relevanceScore == s) <+
        (filterCandidates concepts papers).filter (fun sp => sp.relevanceScore == s)) ∧
    (filterCandidates concepts papers).map ScoredPaper.paper <+ papers := by
  have hperm := List.mergeSort_perm (filterCandidates concepts papers) scoreLE
  have hsorted := List.sorted_mergeSort scoreLE_trans scoreLE_total
      (filterCandidates concepts papers)
  simp only [selectRelated]
  refine ⟨?_, ?_, ?_, ?_, filterCandidates_map_sublist concepts papers⟩
  · intro sp hsp
    exact filterCandidates_score (hperm.subset (List.mem_of_mem_take hsp))
  · have h1 := List.Pairwise.sublist (List.take_sublist 5 _) hsorted
    exact h1.imp (fun h => by simpa [scoreLE] using h)
  · rw [List.length_take]
    exact Nat.min_le_left _ _
  · intro s
    have hpw : ((filterCandidates concepts papers).filter
        (fun sp => sp.relevanceScore == s)).Pairwise (fun a b => scoreLE a b = true) := by
      apply List.pairwise_of_forall_mem_list
      intro a ha b hb
      have ha2 := (List.mem_filter.mp ha).2
      have hb2 := (List.mem_filter.mp hb).2
      simp only [beq_iff_eq] at ha2 hb2
      simp [scoreLE, ha2, hb2]
    have hLS := List.sublist_mergeSort scoreLE_trans scoreLE_total hpw
        (List.filter_sublist _)
    have hfix : ((filterCandidates concepts papers).filter
        (fun sp => sp.relevanceScore == s)).filter (fun sp => sp.relevanceScore == s)
        = (filterCandidates concepts papers).filter (fun sp => sp.relevanceScore == s) := by
      apply List.filter_eq_self.mpr
      intro a ha
      exact (List.mem_filter.mp ha).2
    have hsub := hLS.filter (fun sp => sp.relevanceScore == s)
    rw [hfix] at hsub
    have heq := hsub.eq_of_length ((hperm.filter _).length_eq).symm
    have htake := (List.take_sublist 5
        ((filterCandidates concepts papers).mergeSort scoreLE)).filter
        (fun sp => sp.relevanceScore == s)
    rwa [← heq] at htake

/-- A concrete candidate used by the C1 witness. -/
def samplePaper : ArxivPaper :=
  ⟨str "ab", [], str "2024-01-01", [], str "url", none⟩

/-- `samplePaper` scored against the concepts `"a,b"`. -/
def sampleScored : ScoredPaper := ⟨samplePaper, 2⟩

/-- Witness for C1 at a concrete search result: the selected candidate is a
member, its score meets the threshold, and the selection is within length 5. -/
theorem c1_witness :
    sampleScored ∈ selectRelated (str "a,b") [samplePaper] ∧
    2 ≤ sampleScored.relevanceScore ∧
    (selectRelated (str "a,b") [samplePaper]).length ≤ 5 := by
  have hfc : filterCandidates (str "a,b") [samplePaper] = [sampleScored] := by decide
  have hmem : sampleScored ∈ selectRelated (str "a,b") [samplePaper] := by
    simp [selectRelated, hfc]
  exact ⟨hmem, (c1_related_filter_sort_truncate (str "a,b") [samplePaper]).1 _ hmem,
    (c1_related_filter_sort_truncate (str "a,b") [samplePaper]).2.2.1⟩

/-! ## C3 — the overlap score versus the spec's per-term count -/

/-- C3 counterexample: for the concept string `"a,a"` and a candidate whose
combined text contains `"a"`, the code's overlap score is 1 (the Python
`set` collapses the duplicate raw segment `"a"`), while the count over the
comma-split terms prescribed by the claim is 2. -/
theorem c3_counterexample :
    ¬ overlapScore (str "a,a") (str "a") [] =
        specOverlapScore (str "a,a") (str "a") [] := by decide

/-- C3 amended: whenever the lowercased comma-split segments of the concept
string are pairwise distinct, the code's overlap score equals the count of
extracted concept terms (split on commas, case-insensitive, each term
trimmed) that appear as substrings of the candidate's combined title and
abstract; duplicate raw segments are counted once by the code. -/
theorem c3_amended (concepts title abstractText : Str)
    (h : (splitOnComma (toLowerStr concepts)).Nodup) :
    overlapScore concepts title abstractText =
      specOverlapScore concepts title abstractText := by
  unfold overlapScore specOverlapScore
  rw [List.dedup_eq_self.mpr h]

/-- Witness for C3 at a concrete concept string with distinct segments. -/
theorem c3_witness :
    (splitOnComma (toLowerStr (str "a,b"))).Nodup ∧
    overlapScore (str "a,b") (str "ab") [] =
      specOverlapScore (str "a,b") (str "ab") [] :=
  ⟨by decide, c3_amended (str "a,b") (str "ab") [] (by decide)⟩

/-! ## C2 — stage-3 failures are caught, stage-1/2 failures propagate -/

/-- C2: if the external bibliographic search (stage 3) fails with any
error, `findRelatedJournals` catches it, reports a user-visible warning and
returns the empty result list without raising; a failure of stage 1
(concept extraction) or stage 2 (query construction) propagates out as
`GenerationUnavailable`. -/
theorem c2_search_error_caught_generation_propagates
    (extractConcepts : Except GenerationUnavailable Str)
    (buildQuery : Str → Except GenerationUnavailable Str)
    (searchService : Str → Except SearchUnavailable (List ArxivPaper))
    (fmt : Nat → ScoredPaper → Str) :
    (∀ concepts query e, extractConcepts = .ok concepts →
        buildQuery concepts = .ok query → searchService query = .error e →
        findRelatedJournals extractConcepts buildQuery searchService fmt =
          .ok ⟨some [], true⟩) ∧
    (∀ e, extractConcepts = .error e →
        findRelatedJournals extractConcepts buildQuery searchService fmt = .error e) ∧
    (∀ concepts e, extractConcepts = .ok concepts → buildQuery concepts = .error e →
        findRelatedJournals extractConcepts buildQuery searchService fmt = .error e) := by
  refine ⟨?_, ?_, ?_⟩
  · intro concepts query e h1 h2 h3
    simp [findRelatedJournals, h1, h2, h3]
  · intro e h1
    simp [findRelatedJournals, h1]
  · intro concepts e h1 h2
    simp [findRelatedJournals, h1, h2]

/-- Witness for C2: a failing search is caught and yields the empty list
with a warning; a failing concept extraction propagates. -/
theorem c2_witness :
    findRelatedJournals (.ok (str "c")) (fun _ => .ok (str "q"))
        (fun _ => .error .unavailable) (fun _ _ => []) = .ok ⟨some [], true⟩ ∧
    findRelatedJournals (.error .unavailable) (fun _ => .ok (str "q"))
        (fun _ => .error .unavailable) (fun _ _ => []) = .error .unavailable :=
  ⟨(c2_search_error_caught_generation_propagates (.ok (str "c")) (fun _ => .ok (str "q"))
      (fun _ => .error .unavailable) (fun _ _ => [])).1 (str "c") (str "q")
      .unavailable rfl rfl rfl,
   (c2_search_error_caught_generation_propagates (.error .unavailable)
      (fun _ => .ok (str "q")) (fun _ => .error .unavailable)
      (fun _ _ => [])).2.1 .unavailable rfl⟩

/-! ## C10 — `None` for no survivors, `[]` only on the error path -/

/-- C10: when the external search succeeds but no candidate survives the
overlap filter, `findRelatedJournals` returns `None` (modelled `none`)
rather than the empty list; on a successful search the empty list is never
returned, so `[]` arises only on the search-error path and the caller can
distinguish the two by `None` versus `[]`. -/
theorem c10_none_vs_empty
    (extractConcepts : Except GenerationUnavailable Str)
    (buildQuery : Str → Except GenerationUnavailable Str)
    (searchService : Str → Except SearchUnavailable (List ArxivPaper))
    (fmt : Nat → ScoredPaper → Str)
    (concepts query : Str) (papers : List ArxivPaper)
    (h1 : extractConcepts = .ok concepts)
    (h2 : buildQuery concepts = .ok query)
    (h3 : searchService query = .ok papers) :
    (selectRelated concepts papers = [] →
      findRelatedJournals extractConcepts buildQuery searchService fmt =
        .ok ⟨none, false⟩) ∧
    (∀ out, findRelatedJournals extractConcepts buildQuery searchService fmt =
        .ok out → out.result ≠ some []) := by
  constructor
  · intro hsel
    simp [findRelatedJournals, h1, h2, h3, hsel]
  · intro out hout hcontra
    simp only [findRelatedJournals, h1, h2, h3, Except.ok.injEq] at hout
    subst hout
    simp only at hcontra
    split at hcontra
    · exact Option.noConfusion hcontra
    · next hne =>
      exact hne (by simpa using hcontra)

/-- Witness for C10: a successful search with no surviving candidate makes
the retriever return `None`, not the empty list. -/
theorem c10_witness :
    findRelatedJournals (.ok (str "c")) (fun _ => .ok (str "q"))
        (fun _ => .ok []) (fun _ _ => []) = .ok ⟨none, false⟩ :=
  (c10_none_vs_empty (.ok (str "c")) (fun _ => .ok (str "q")) (fun _ => .ok [])
      (fun _ _ => []) (str "c") (str "q") [] rfl rfl rfl).1
    (by simp [selectRelated, filterCandidates])

/-! ## C4 — no text layer: `UnreadableDocument` and no artifact -/

/-- C4: for every PDF whose loader run finds no extractable text layer,
ingestion fails with `UnreadableDocument`, and the upload handler applied
to a fresh session produces no artifact: no summary, no full text, no
citations, no related-work list, no chat answer. -/
theorem c4_unreadable_no_artifact
    (env : IngestEnv) (llm : Str → Str → Str) (tmpPath : Nat)
    (store : Nat → Option Bytes) (fileName : Str) (bytes : Bytes)
    (hread : env.readUpload = some bytes)
    (hload : env.loadPdf bytes = .error .noTextLayer) :
    (loadAndSplitPdf env tmpPath store).outcome = .error .unreadableDocument ∧
    (uploadHandler env llm tmpPath store initialSession fileName).1.summary = none ∧
    (uploadHandler env llm tmpPath store initialSession fileName).1.fullText = [] ∧
    (uploadHandler env llm tmpPath store initialSession fileName).1.citations = none ∧
    (uploadHandler env llm tmpPath store initialSession fileName).1.relatedPapers
      = none ∧
    (uploadHandler env llm tmpPath store initialSession fileName).1.chatHistory = [] := by
  have hout : (loadAndSplitPdf env tmpPath store).outcome =
      .error .unreadableDocument := by
    simp [loadAndSplitPdf, hread, updateStore, hload]
  refine ⟨hout, ?_, ?_, ?_, ?_, ?_⟩ <;>
    simp [uploadHandler, hout, initialSession]

/-- Witness for C4 at a concrete loader that reports no text layer. -/
theorem c4_witness :
    (loadAndSplitPdf ⟨some [], fun _ => .error .noTextLayer⟩ 0
        (fun _ => none)).outcome = .error .unreadableDocument ∧
    (uploadHandler ⟨some [], fun _ => .error .noTextLayer⟩ (fun _ d => d) 0
        (fun _ => none) initialSession []).1.summary = none :=
  ⟨(c4_unreadable_no_artifact ⟨some [], fun _ => .error .noTextLayer⟩ (fun _ d => d)
      0 (fun _ => none) [] [] rfl rfl).1,
   (c4_unreadable_no_artifact ⟨some [], fun _ => .error .noTextLayer⟩ (fun _ d => d)
      0 (fun _ => none) [] [] rfl rfl).2.1⟩

/-! ## C5 — the staging file on the write-failure exit path -/

/-- C5 (bug exhibit): if reading/writing the upload raises inside the
`with NamedTemporaryFile(delete=False)` block (line 28 of `src/app.py`),
the `try/finally` holding `os.unlink` is never entered, so ingestion exits
with a failure while the staging file created at `tmpPath` is still
present — the claim's "removed on all exit paths, including a failure
while writing" fails on this path. -/
theorem c5_staging_write_failure_leaks_temp_file :
    (loadAndSplitPdf ⟨none, fun _ => .ok []⟩ 0 (fun _ => none)).outcome =
        .error .uploadReadFailed ∧
    (loadAndSplitPdf ⟨none, fun _ => .ok []⟩ 0 (fun _ => none)).tempFiles 0 =
        some [] := by
  constructor <;> rfl

/-- On the exit paths that reach the `try/finally` (load failure, split,
success), the staging file is removed: the cleanup guarantee holds once
staging succeeded. -/
theorem temp_file_removed_after_staging (env : IngestEnv) (tmpPath : Nat)
    (store : Nat → Option Bytes) (bytes : Bytes)
    (hread : env.readUpload = some bytes) :
    (loadAndSplitPdf env tmpPath store).tempFiles tmpPath = none := by
  cases hload : env.loadPdf bytes <;>
    simp [loadAndSplitPdf, hread, updateStore, hload]

/-! ## C9 — ingestion is deterministic in the file bytes -/

/-- C9: two runs of ingestion on the same file bytes yield identical
outcomes and byte-identical concatenated text, whatever staging path the
temporary file gets and whatever else temporary storage holds: the output
depends only on the upload's bytes and the loader. -/
theorem c9_ingestion_deterministic (env : IngestEnv)
    (tmpPath1 tmpPath2 : Nat) (store1 store2 : Nat → Option Bytes) :
    (loadAndSplitPdf env tmpPath1 store1).outcome =
      (loadAndSplitPdf env tmpPath2 store2).outcome ∧
    ((loadAndSplitPdf env tmpPath1 store1).outcome.map fullTextOf =
      (loadAndSplitPdf env tmpPath2 store2).outcome.map fullTextOf) := by
  have h : ∀ tp st, (loadAndSplitPdf env tp st).outcome =
      (match env.readUpload with
        | none => .error .uploadReadFailed
        | some bytes =>
          match env.loadPdf bytes with
          | .error _ => .error .unreadableDocument
          | .ok pages => .ok (splitPages pages)) := by
    intro tp st
    cases hr : env.readUpload with
    | none => simp [loadAndSplitPdf, hr]
    | some bytes =>
      cases hl : env.loadPdf bytes <;>
        simp [loadAndSplitPdf, hr, updateStore, hl]
  exact ⟨by rw [h, h], by rw [h, h]⟩

/-! ## C6 — window concatenation versus the document's text -/

/-- A text short enough for one window is returned whole, whatever the fuel. -/
theorem splitTextAux_of_le (chunkSize stride fuel : Nat) (t : Str)
    (h : t.length ≤ chunkSize) : splitTextAux chunkSize stride fuel t = [t] := by
  cases fuel <;> simp [splitTextAux, h]

/-- Unfolding step of the splitter on a text longer than one window. -/
theorem splitTextAux_succ (chunkSize stride fuel : Nat) (t : Str)
    (h : ¬ t.length ≤ chunkSize) :
    splitTextAux chunkSize stride (fuel + 1) t =
      t.take chunkSize :: splitTextAux chunkSize stride fuel (t.drop stride) := by
  simp [splitTextAux, h]

/-- A page of at most `chunkSize` characters yields exactly one window. -/
theorem splitText_of_le (chunkSize overlap : Nat) (t : Str)
    (h : t.length ≤ chunkSize) : splitText chunkSize overlap t = [t] :=
  splitTextAux_of_le chunkSize (chunkSize - overlap) t.length t h

/-- When every page fits one window, splitting changes nothing. -/
theorem splitPages_of_small (pages : List Str)
    (h : ∀ p ∈ pages, p.length ≤ 4000) : splitPages pages = pages := by
  induction pages with
  | nil => simp [splitPages]
  | cons p ps ih =>
    simp only [splitPages, List.flatMap_cons]
    rw [splitText_of_le 4000 200 p (h p (by simp))]
    have := ih (fun q hq => h q (by simp [hq]))
    simp only [splitPages] at this
    rw [this]
    simp

/-- C6 counterexample: on a single page of 4001 identical characters the
splitter produces two overlapping windows (4000 and 201 characters sharing
a 200-character overlap), so the blank-line concatenation of the windows
has 4203 characters and is not the page's text: the claimed faithful
full-text reconstruction fails as soon as a window boundary occurs. -/
theorem c6_counterexample :
    fullTextOf (splitPages [List.replicate 4001 'a']) ≠
      fullTextOf [List.replicate 4001 'a'] := by
  have hlen : (List.replicate 4001 'a').length = 4001 := List.length_replicate 4001 'a'
  have hgt : ¬ (List.replicate 4001 'a').length ≤ 4000 := by
    rw [hlen]; decide
  have h1 : splitTextAux 4000 3800 4001 (List.replicate 4001 'a') =
      [List.replicate 4000 'a', List.replicate 201 'a'] := by
    rw [show splitTextAux 4000 3800 4001 (List.replicate 4001 'a')
        = splitTextAux 4000 3800 (4000 + 1) (List.replicate 4001 'a') from rfl,
      splitTextAux_succ 4000 3800 4000 (List.replicate 4001 'a') hgt,
      List.take_replicate, List.drop_replicate,
      show min 4000 4001 = 4000 from by decide,
      show (4001 : Nat) - 3800 = 201 from by decide,
      splitTextAux_of_le 4000 3800 4000 (List.replicate 201 'a')
        (by rw [List.length_replicate]; decide)]
  have h2 : splitText 4000 200 (List.replicate 4001 'a') =
      [List.replicate 4000 'a', List.replicate 201 'a'] := by
    unfold splitText
    rw [hlen, show (4000 : Nat) - 200 = 3800 from rfl, h1]
  have h3 : splitPages [List.replicate 4001 'a'] =
      [List.replicate 4000 'a', List.replicate 201 'a'] := by
    rw [show splitPages [List.replicate 4001 'a']
        = splitText 4000 200 (List.replicate 4001 'a') ++ [] from rfl, h2,
      List.append_nil]
  intro hEq
  have hlens := congrArg List.length hEq
  rw [h3, show fullTextOf [List.replicate 4000 'a', List.replicate 201 'a']
        = List.replicate 4000 'a' ++ str "\n\n" ++ List.replicate 201 'a' from rfl,
    show fullTextOf [List.replicate 4001 'a'] = List.replicate 4001 'a' from rfl]
    at hlens
  simp only [List.length_append, List.length_replicate,
    show (str "\n\n").length = 2 from rfl] at hlens
  omega

/-- C6 amended: when no page exceeds the window size (so no page is split
and no overlap is introduced), concatenating the ingestion windows in page
order reconstructs the document's full text, the pages joined in reading
order; a page above the window size produces overlapping windows whose
concatenation duplicates the overlapped characters. -/
theorem c6_amended (pages : List Str) (h : ∀ p ∈ pages, p.length ≤ 4000) :
    fullTextOf (splitPages pages) = fullTextOf pages := by
  rw [splitPages_of_small pages h]

/-- Witness for C6 on a two-page document below the window size. -/
theorem c6_witness :
    (∀ p ∈ [str "a", str "b"], p.length ≤ 4000) ∧
    fullTextOf (splitPages [str "a", str "b"]) = fullTextOf [str "a", str "b"] :=
  ⟨by decide, c6_amended [str "a", str "b"] (by decide)⟩

/-! ## C7 — the summary artifact and the nine-field instruction -/

/-- C7 counterexample: the summary artifact is the generation service's
completion returned verbatim and unvalidated, so a service response that
ignores the instruction yields an artifact without the nine labeled
fields: the claim fails at the service behavior returning `"x"`. -/
theorem c7_counterexample :
    generateSummary (fun _ _ => str "x") (str "d") = str "x" ∧
    containsAllSummaryFields (generateSummary (fun _ _ => str "x") (str "d"))
      = false := by
  exact ⟨rfl, by decide⟩

/-- C7 amended: the fixed summary system instruction enumerates exactly
nine labeled fields in a fixed order (Judul, Author(s), Abstract, Keywords,
Metode Penelitian, Publisher, Tanggal Publish, Kesimpulan, DOI) and
prescribes the sentinel `Tidak Diketahui` for absent information; the
artifact itself is the service's response passed through verbatim, so it
carries the nine fields exactly when the service follows the instruction. -/
theorem c7_amended :
    summaryFieldLabels =
      [str "Judul", str "Author(s)", str "Abstract", str "Keywords",
       str "Metode Penelitian", str "Publisher", str "Tanggal Publish",
       str "Kesimpulan", str "DOI"] ∧
    summaryFieldLabels.length = 9 ∧
    occursIn (str "Tidak Diketahui") summarySystemPrompt = true ∧
    occursIn (str "4. Jika informasi tidak ada, cukup tulis \x27Tidak Diketahui\x27")
      summarySystemPrompt = true ∧
    ∀ llm documentText,
      generateSummary llm documentText = llm summarySystemPrompt documentText := by
  exact ⟨by decide, by decide, by decide, by decide, fun _ _ => rfl⟩

/-! ## C8 — the citation artifact and the seven-style instruction -/

/-- C8 counterexample: the citation artifact is the generation service's
completion returned verbatim and unvalidated, so a service response that
ignores the instruction yields an artifact without the seven style
sections: the claim fails at the service behavior returning `"x"`. -/
theorem c8_counterexample :
    generateCitations (fun _ _ => str "x") (str "d") = str "x" ∧
    containsAllCitationStyles (generateCitations (fun _ _ => str "x") (str "d"))
      = false := by
  exact ⟨rfl, by decide⟩

/-- C8 amended: the fixed citation system instruction enumerates exactly
seven named citation-style sections in a fixed order (APA, MLA, Harvard,
IEEE, Chicago, Vancouver, AMA), instructs bracketed placeholder text for
missing bibliographic data and forbids prose outside the section markers;
the artifact itself is the service's response passed through verbatim, so
it carries the seven sections exactly when the service complies. -/
theorem c8_amended :
    citationStyleLabels =
      [str "APA Style", str "MLA Style", str "Harvard Style", str "IEEE Style",
       str "Chicago Style", str "Vancouver Style", str "AMA Style"] ∧
    citationStyleLabels.length = 7 ∧
    occursIn (str "5. For missing information, use [assumed information] and keep it minimal")
      citationSystemPrompt = true ∧
    occursIn (str "6. Do not add any other text outside the citation formats")
      citationSystemPrompt = true ∧
    ∀ llm documentText,
      generateCitations llm documentText = llm citationSystemPrompt documentText := by
  exact ⟨by decide, by decide, by decide, by decide, fun _ _ => rfl⟩
